import Mathlib

/-!
Shallow embedding of the constraint / force-element layer of the cannon-es
rigid-body physics engine: `DistanceConstraint` (src/constraints/DistanceConstraint.ts),
`ContactMaterial` and `Spring`, together with the parts of the external
`Vec3` / `Body` contract they consume.  JavaScript numbers are modelled as
real numbers; the in-place vector mutations of the source become explicit
state passing.
-/

namespace CannonES

/-- A 3-component vector, the `Vec3` value the source operates on. -/
structure Vec3 where
  x : ℝ
  y : ℝ
  z : ℝ

/-- The zero vector, `new Vec3()`. -/
def Vec3.zero : Vec3 := ⟨0, 0, 0⟩

/-- Componentwise addition, `Vec3.vadd`. -/
def Vec3.vadd (a b : Vec3) : Vec3 := ⟨a.x + b.x, a.y + b.y, a.z + b.z⟩

/-- Componentwise subtraction, `Vec3.vsub`. -/
def Vec3.vsub (a b : Vec3) : Vec3 := ⟨a.x - b.x, a.y - b.y, a.z - b.z⟩

/-- Scalar multiplication, `Vec3.mult` (also called `scale`). -/
def Vec3.mult (a : Vec3) (s : ℝ) : Vec3 := ⟨a.x * s, a.y * s, a.z * s⟩

/-- Componentwise negation, `Vec3.negate`. -/
def Vec3.negate (a : Vec3) : Vec3 := ⟨-a.x, -a.y, -a.z⟩

/-- Dot product, `Vec3.dot`. -/
def Vec3.dot (a b : Vec3) : ℝ := a.x * b.x + a.y * b.y + a.z * b.z

/-- Cross product, `Vec3.cross`. -/
def Vec3.cross (a b : Vec3) : Vec3 :=
  ⟨a.y * b.z - a.z * b.y, a.z * b.x - a.x * b.z, a.x * b.y - a.y * b.x⟩

/-- Euclidean norm of a vector, `Vec3.norm`. -/
noncomputable def Vec3.norm (v : Vec3) : ℝ :=
  Real.sqrt (v.x ^ 2 + v.y ^ 2 + v.z ^ 2)

/-- Modelled from the spec: `Vec3.normalize` (the `Vec3` source file is not part
of this repository snapshot).  Scaling by the inverse norm yields the unit
vector; per the spec the zero-length case "leaves the result undefined
(zero-length normalization) ... not handled by the underlying geometry
operation", so it is modelled as `none`. -/
noncomputable def Vec3.normalize (v : Vec3) : Option Vec3 :=
  if Vec3.norm v = 0 then none else some (v.mult (Vec3.norm v)⁻¹)

/-- Euclidean distance between two points, `Vec3.distanceTo`. -/
noncomputable def Vec3.distanceTo (a b : Vec3) : ℝ := Vec3.norm (b.vsub a)

/-- Modelled from the spec: the external RigidBody contract — position,
orientation (kept abstract as a local-to-world rotation map and its inverse),
linear and angular velocity, and the force / torque accumulators. -/
structure Body where
  position : Vec3
  velocity : Vec3
  angularVelocity : Vec3
  force : Vec3
  torque : Vec3
  rot : Vec3 → Vec3
  rotInv : Vec3 → Vec3

/-- Modelled from the spec: `Body.pointToWorldFrame` — rotate a local point into
world orientation and translate by the body's position. -/
def Body.pointToWorldFrame (b : Body) (p : Vec3) : Vec3 :=
  (b.rot p).vadd b.position

/-- Modelled from the spec: `Body.pointToLocalFrame`, the inverse transform. -/
def Body.pointToLocalFrame (b : Body) (p : Vec3) : Vec3 :=
  b.rotInv (p.vsub b.position)

/-- The fields of a `ContactEquation` the distance constraint reads and writes:
the two bodies, direction `ni`, anchor offsets `ri` / `rj`, force bounds. -/
structure ContactEquation where
  bodyA : Body
  bodyB : Body
  ni : Vec3
  ri : Vec3
  rj : Vec3
  minForce : ℝ
  maxForce : ℝ

/-- Modelled from the spec: `new ContactEquation(bodyA, bodyB)` — vectors start
at zero, bounds at the unilateral defaults. -/
def ContactEquation.init (bodyA bodyB : Body) : ContactEquation :=
  { bodyA := bodyA, bodyB := bodyB, ni := Vec3.zero, ri := Vec3.zero,
    rj := Vec3.zero, minForce := 0, maxForce := 1e6 }

/-- The `DistanceConstraint` state: the two bodies and the `equations` list of
the `Constraint` base class, `distance`, and the owned `distanceEquation`. -/
structure DistanceConstraint where
  bodyA : Body
  bodyB : Body
  distance : ℝ
  equations : List ContactEquation
  distanceEquation : ContactEquation

/-- The `DistanceConstraint` constructor: optional `distance` defaults to the
current distance between the bodies, optional `maxForce` defaults to `1e6`;
one `ContactEquation` is created, made bidirectional
(`minForce = -maxForce`), and pushed onto `equations`. -/
noncomputable def DistanceConstraint.construct (bodyA bodyB : Body)
    (distanceOpt maxForceOpt : Option ℝ) : DistanceConstraint :=
  let maxForce := maxForceOpt.getD 1e6
  let distance :=
    match distanceOpt with
    | some d => d
    | none => bodyA.position.distanceTo bodyB.position
  let eq0 := ContactEquation.init bodyA bodyB
  let eq : ContactEquation := { eq0 with minForce := -maxForce, maxForce := maxForce }
  { bodyA := bodyA, bodyB := bodyB, distance := distance,
    equations := [eq], distanceEquation := eq }

/-- `DistanceConstraint.update()`: writes `bodyB.position - bodyA.position`
into `ni`, normalizes it in place, then sets `ri = ni * halfDist` and
`rj = ni * (-halfDist)`.  Returns the refreshed `distanceEquation`; `none`
when the normalization is undefined (coincident centers). -/
noncomputable def DistanceConstraint.update (c : DistanceConstraint) :
    Option ContactEquation :=
  let halfDist := c.distance * 0.5
  match Vec3.normalize (c.bodyB.position.vsub c.bodyA.position) with
  | none => none
  | some normal =>
      some { c.distanceEquation with
              ni := normal, ri := normal.mult halfDist, rj := normal.mult (-halfDist) }

/-- Modelled from the spec: a material identity tag (the `Material` class is
not part of this repository snapshot; only its identity matters here). -/
structure Material where
  tag : ℕ

/-- The optional fields of `ContactMaterialOptions`. -/
structure ContactMaterialOptions where
  friction : Option ℝ := none
  restitution : Option ℝ := none
  contactEquationStiffness : Option ℝ := none
  contactEquationRelaxation : Option ℝ := none
  frictionEquationStiffness : Option ℝ := none
  frictionEquationRelaxation : Option ℝ := none

/-- The `ContactMaterial` record. -/
structure ContactMaterial where
  id : ℕ
  materials : Material × Material
  friction : ℝ
  restitution : ℝ
  contactEquationStiffness : ℝ
  contactEquationRelaxation : ℝ
  frictionEquationStiffness : ℝ
  frictionEquationRelaxation : ℝ

/-- The `ContactMaterial` constructor.  `Utils.defaults` (modelled from the
spec: each option field not supplied takes its documented default, a supplied
field keeps the supplied value) fills the defaults; the process-global
`ContactMaterial.idCounter` becomes an explicit counter threaded through as
state, post-incremented on each construction. -/
def ContactMaterial.construct (m1 m2 : Material) (options : ContactMaterialOptions)
    (idCounter : ℕ) : ContactMaterial × ℕ :=
  ({ id := idCounter,
     materials := (m1, m2),
     friction := options.friction.getD 0.3,
     restitution := options.restitution.getD 0.3,
     contactEquationStiffness := options.contactEquationStiffness.getD 1e7,
     contactEquationRelaxation := options.contactEquationRelaxation.getD 3,
     frictionEquationStiffness := options.frictionEquationStiffness.getD 1e7,
     frictionEquationRelaxation := options.frictionEquationRelaxation.getD 3 },
   idCounter + 1)

/-- A sequence of `ContactMaterial` constructions in one process: each call
consumes and advances the shared id counter. -/
def ContactMaterial.constructAll
    (reqs : List (Material × Material × ContactMaterialOptions)) (idCounter : ℕ) :
    List ContactMaterial :=
  match reqs with
  | [] => []
  | (m1, m2, o) :: rest =>
      let r := ContactMaterial.construct m1 m2 o idCounter
      r.1 :: ContactMaterial.constructAll rest r.2

/-- The optional fields of `SpringOptions`. -/
structure SpringOptions where
  restLength : Option ℝ := none
  stiffness : Option ℝ := none
  damping : Option ℝ := none
  localAnchorA : Option Vec3 := none
  localAnchorB : Option Vec3 := none
  worldAnchorA : Option Vec3 := none
  worldAnchorB : Option Vec3 := none

/-- The `Spring` record. -/
structure Spring where
  restLength : ℝ
  stiffness : ℝ
  damping : ℝ
  bodyA : Body
  bodyB : Body
  localAnchorA : Vec3
  localAnchorB : Vec3

/-- `Spring.setWorldAnchorA`: store the world point converted to bodyA's local
frame. -/
def Spring.setWorldAnchorA (s : Spring) (worldAnchorA : Vec3) : Spring :=
  { s with localAnchorA := s.bodyA.pointToLocalFrame worldAnchorA }

/-- `Spring.setWorldAnchorB`: store the world point converted to bodyB's local
frame. -/
def Spring.setWorldAnchorB (s : Spring) (worldAnchorB : Vec3) : Spring :=
  { s with localAnchorB := s.bodyB.pointToLocalFrame worldAnchorB }

/-- `Spring.getWorldAnchorA`: bodyA's local anchor in world coordinates. -/
def Spring.getWorldAnchorA (s : Spring) : Vec3 :=
  s.bodyA.pointToWorldFrame s.localAnchorA

/-- `Spring.getWorldAnchorB`: bodyB's local anchor in world coordinates. -/
def Spring.getWorldAnchorB (s : Spring) : Vec3 :=
  s.bodyB.pointToWorldFrame s.localAnchorB

/-- The `Spring` constructor.  `restLength` uses a `typeof === 'number'` test
(so an explicit `0` is kept), while `stiffness` and `damping` use the
JavaScript `||` operator (so an explicit `0` is falsy and replaced by the
default); local anchors start at zero and are overwritten by the
`localAnchor` / `worldAnchor` options in source order. -/
noncomputable def Spring.construct (bodyA bodyB : Body) (options : SpringOptions) :
    Spring :=
  let base : Spring :=
    { restLength :=
        match options.restLength with
        | some v => v
        | none => 1,
      stiffness :=
        match options.stiffness with
        | some v => if v = 0 then 100 else v
        | none => 100,
      damping :=
        match options.damping with
        | some v => if v = 0 then 1 else v
        | none => 1,
      bodyA := bodyA, bodyB := bodyB,
      localAnchorA :=
        match options.localAnchorA with
        | some a => a
        | none => Vec3.zero,
      localAnchorB :=
        match options.localAnchorB with
        | some a => a
        | none => Vec3.zero }
  let s1 :=
    match options.worldAnchorA with
    | some w => base.setWorldAnchorA w
    | none => base
  match options.worldAnchorB with
  | some w => s1.setWorldAnchorB w
  | none => s1

/-- `Spring.applyForce()`: compute the spring force from the current body
kinematics and accumulate it (with the induced torques) into the four
accumulators.  Returns the spring together with the two updated bodies;
`none` when the anchor separation has zero length, where the normalization
is undefined (modelled from the spec). -/
noncomputable def Spring.applyForce (s : Spring) : Option (Spring × Body × Body) :=
  let k := s.stiffness
  let d := s.damping
  let l := s.restLength
  let bodyA := s.bodyA
  let bodyB := s.bodyB
  let worldAnchorA := s.getWorldAnchorA
  let worldAnchorB := s.getWorldAnchorB
  let ri := worldAnchorA.vsub bodyA.position
  let rj := worldAnchorB.vsub bodyB.position
  let r := worldAnchorB.vsub worldAnchorA
  let rlen := Vec3.norm r
  match Vec3.normalize r with
  | none => none
  | some runit =>
      let u0 := bodyB.velocity.vsub bodyA.velocity
      let u1 := u0.vadd (bodyB.angularVelocity.cross rj)
      let u := u1.vsub (bodyA.angularVelocity.cross ri)
      let f := runit.mult (-k * (rlen - l) - d * (u.dot runit))
      some (s,
        { bodyA with force := bodyA.force.vsub f,
                     torque := bodyA.torque.vsub (ri.cross f) },
        { bodyB with force := bodyB.force.vadd f,
                     torque := bodyB.torque.vadd (rj.cross f) })

/-- A spring with the force and torque accumulators of both bodies replaced,
everything else untouched: used to state that `applyForce` only accumulates
into them. -/
def Spring.withAccumulators (s : Spring) (fA tA fB tB : Vec3) : Spring :=
  { s with bodyA := { s.bodyA with force := fA, torque := tA },
           bodyB := { s.bodyB with force := fB, torque := tB } }

theorem Vec3.norm_nonneg (v : Vec3) : 0 ≤ Vec3.norm v := Real.sqrt_nonneg _

theorem Vec3.norm_eq_zero_iff (v : Vec3) : Vec3.norm v = 0 ↔ v = Vec3.zero := by
  unfold Vec3.norm
  rw [Real.sqrt_eq_zero']
  constructor
  · intro h
    have hx : v.x = 0 := by nlinarith [sq_nonneg v.x, sq_nonneg v.y, sq_nonneg v.z]
    have hy : v.y = 0 := by nlinarith [sq_nonneg v.x, sq_nonneg v.y, sq_nonneg v.z]
    have hz : v.z = 0 := by nlinarith [sq_nonneg v.x, sq_nonneg v.y, sq_nonneg v.z]
    cases v
    simp_all [Vec3.zero]
  · intro h
    subst h
    simp [Vec3.zero]

theorem Vec3.norm_mult (v : Vec3) (s : ℝ) :
    Vec3.norm (v.mult s) = |s| * Vec3.norm v := by
  unfold Vec3.norm Vec3.mult
  have h : (v.x * s) ^ 2 + (v.y * s) ^ 2 + (v.z * s) ^ 2
      = s ^ 2 * (v.x ^ 2 + v.y ^ 2 + v.z ^ 2) := by ring
  rw [h, Real.sqrt_mul (sq_nonneg s), Real.sqrt_sq_eq_abs]

theorem Vec3.vsub_self (v : Vec3) : v.vsub v = Vec3.zero := by
  simp [Vec3.vsub, Vec3.zero]

theorem Vec3.vsub_eq_zero_iff (a b : Vec3) : a.vsub b = Vec3.zero ↔ a = b := by
  cases a; cases b
  simp [Vec3.vsub, Vec3.zero, Vec3.mk.injEq, sub_eq_zero]

theorem Vec3.normalize_eq_some {v : Vec3} (h : v ≠ Vec3.zero) :
    Vec3.normalize v = some (v.mult (Vec3.norm v)⁻¹) := by
  unfold Vec3.normalize
  rw [if_neg (fun h0 => h ((Vec3.norm_eq_zero_iff v).mp h0))]

theorem Vec3.normalize_zero_eq_none {v : Vec3} (h : v = Vec3.zero) :
    Vec3.normalize v = none := by
  unfold Vec3.normalize
  rw [if_pos ((Vec3.norm_eq_zero_iff v).mpr h)]

theorem Vec3.norm_normalized {v : Vec3} (h : v ≠ Vec3.zero) :
    Vec3.norm (v.mult (Vec3.norm v)⁻¹) = 1 := by
  have h0 : Vec3.norm v ≠ 0 := fun h0 => h ((Vec3.norm_eq_zero_iff v).mp h0)
  rw [Vec3.norm_mult, abs_of_nonneg (inv_nonneg.mpr (Vec3.norm_nonneg v)),
    inv_mul_cancel₀ h0]

/-- A test body at rest at position `p`, with the identity orientation. -/
def mkTestBody (p : Vec3) : Body :=
  { position := p, velocity := Vec3.zero, angularVelocity := Vec3.zero,
    force := Vec3.zero, torque := Vec3.zero, rot := id, rotInv := id }

/-- Test body at the origin. -/
def bodyO : Body := mkTestBody Vec3.zero

/-- Test body at `(3, 0, 0)`. -/
def bodyX : Body := mkTestBody ⟨3, 0, 0⟩

/-- A concrete distance constraint between distinct centers, target distance 4. -/
noncomputable def dcFix : DistanceConstraint :=
  DistanceConstraint.construct bodyO bodyX (some 4) none

/-- A concrete degenerate distance constraint: both centers at the origin. -/
noncomputable def dcDegenerate : DistanceConstraint :=
  DistanceConstraint.construct bodyO bodyO (some 1) none

/-- A second degenerate distance constraint, target distance 2. -/
noncomputable def dcDegenerate2 : DistanceConstraint :=
  DistanceConstraint.construct bodyO bodyO (some 2) none

/-- C1: for a `DistanceConstraint` with positive `distance` whose bodies'
centers do not coincide, `update()` sets `ni` to the unit-length
normalization of `bodyB.position - bodyA.position`,
`ri = ni * (distance/2)` and `rj = ni * (-(distance/2))`; hence
`|ri| = |rj| = distance/2` and `ri = -rj`. -/
theorem distanceConstraint_update_geometry (c : DistanceConstraint)
    (hd : 0 < c.distance) (hne : c.bodyB.position ≠ c.bodyA.position) :
    ∃ n : Vec3,
      n = (c.bodyB.position.vsub c.bodyA.position).mult
            (Vec3.norm (c.bodyB.position.vsub c.bodyA.position))⁻¹ ∧
      Vec3.norm n = 1 ∧
      c.update = some { c.distanceEquation with
          ni := n,
          ri := n.mult (c.distance * 0.5),
          rj := n.mult (-(c.distance * 0.5)) } ∧
      Vec3.norm (n.mult (c.distance * 0.5)) = c.distance / 2 ∧
      Vec3.norm (n.mult (-(c.distance * 0.5))) = c.distance / 2 ∧
      n.mult (c.distance * 0.5) = (n.mult (-(c.distance * 0.5))).negate := by
  have hvz : c.bodyB.position.vsub c.bodyA.position ≠ Vec3.zero := by
    intro h
    exact hne ((Vec3.vsub_eq_zero_iff _ _).mp h)
  set v := c.bodyB.position.vsub c.bodyA.position with hv
  refine ⟨v.mult (Vec3.norm v)⁻¹, rfl, Vec3.norm_normalized hvz, ?_, ?_, ?_, ?_⟩
  · unfold DistanceConstraint.update
    rw [← hv, Vec3.normalize_eq_some hvz]
  · rw [Vec3.norm_mult, Vec3.norm_normalized hvz, mul_one,
      abs_of_pos (by linarith : (0:ℝ) < c.distance * 0.5)]
    ring
  · rw [Vec3.norm_mult, Vec3.norm_normalized hvz, mul_one,
      abs_of_neg (by linarith : -(c.distance * 0.5) < 0)]
    ring
  · simp [Vec3.mult, Vec3.negate]

/-- Witness for C1 at a concrete constraint: distance 4, centers at the
origin and at `(3,0,0)`. -/
theorem distanceConstraint_update_geometry_witness :
    0 < dcFix.distance ∧ dcFix.bodyB.position ≠ dcFix.bodyA.position ∧
      (DistanceConstraint.update dcFix).isSome = true := by
  have hd : 0 < dcFix.distance := by
    norm_num [dcFix, DistanceConstraint.construct]
  have hne : dcFix.bodyB.position ≠ dcFix.bodyA.position := by
    intro h
    have hx := congrArg Vec3.x h
    norm_num [dcFix, DistanceConstraint.construct, bodyO, bodyX, mkTestBody,
      Vec3.zero] at hx
  obtain ⟨n, _, _, hupd, _⟩ := distanceConstraint_update_geometry dcFix hd hne
  exact ⟨hd, hne, by rw [hupd]; rfl⟩

/-- C4 counterexample: a `DistanceConstraint` whose centers coincide.  The
unguarded zero-length normalization is undefined, so `update()` produces no
direction at all — no deterministic fallback axis is substituted for `ni`. -/
theorem distanceConstraint_update_degenerate_counterexample :
    DistanceConstraint.update dcDegenerate = none := by
  unfold DistanceConstraint.update
  have h : dcDegenerate.bodyB.position.vsub dcDegenerate.bodyA.position
      = Vec3.zero := by
    simp [dcDegenerate, DistanceConstraint.construct, bodyO, mkTestBody,
      Vec3.vsub_self]
  rw [Vec3.normalize_zero_eq_none h]

/-- C4 (amended): whenever the two centers coincide, `update()` performs an
unguarded zero-length normalization, which is undefined; no fallback axis is
assigned to `ni`, so the update produces no refreshed equation. -/
theorem distanceConstraint_update_degenerate (c : DistanceConstraint)
    (h : c.bodyB.position = c.bodyA.position) :
    c.update = none := by
  unfold DistanceConstraint.update
  rw [Vec3.normalize_zero_eq_none (by rw [h]; exact Vec3.vsub_self _)]

/-- Witness for the amended C4 at a concrete degenerate constraint. -/
theorem distanceConstraint_update_degenerate_witness :
    dcDegenerate2.bodyB.position = dcDegenerate2.bodyA.position ∧
      DistanceConstraint.update dcDegenerate2 = none := by
  have h : dcDegenerate2.bodyB.position = dcDegenerate2.bodyA.position := rfl
  exact ⟨h, distanceConstraint_update_degenerate dcDegenerate2 h⟩

/-- C6: constructing a `DistanceConstraint` without an explicit distance sets
`distance` to the Euclidean distance between the bodies' positions at
construction time. -/
theorem distanceConstraint_default_distance (bodyA bodyB : Body)
    (maxForceOpt : Option ℝ) :
    (DistanceConstraint.construct bodyA bodyB none maxForceOpt).distance
      = bodyA.position.distanceTo bodyB.position := rfl

/-- C7: the `DistanceConstraint` constructor creates exactly one equation,
pushed onto `equations`, referencing the constraint's own body pair,
bidirectional (`minForce = -maxForce`), with `maxForce` defaulting to `1e6`
when not supplied. -/
theorem distanceConstraint_construct_equation (bodyA bodyB : Body)
    (distanceOpt maxForceOpt : Option ℝ) :
    (DistanceConstraint.construct bodyA bodyB distanceOpt maxForceOpt).equations
        = [(DistanceConstraint.construct bodyA bodyB distanceOpt maxForceOpt).distanceEquation] ∧
    (DistanceConstraint.construct bodyA bodyB distanceOpt maxForceOpt).bodyA = bodyA ∧
    (DistanceConstraint.construct bodyA bodyB distanceOpt maxForceOpt).bodyB = bodyB ∧
    (DistanceConstraint.construct bodyA bodyB distanceOpt maxForceOpt).distanceEquation.bodyA = bodyA ∧
    (DistanceConstraint.construct bodyA bodyB distanceOpt maxForceOpt).distanceEquation.bodyB = bodyB ∧
    (DistanceConstraint.construct bodyA bodyB distanceOpt maxForceOpt).distanceEquation.minForce
        = -(maxForceOpt.getD 1e6) ∧
    (DistanceConstraint.construct bodyA bodyB distanceOpt maxForceOpt).distanceEquation.maxForce
        = maxForceOpt.getD 1e6 ∧
    (DistanceConstraint.construct bodyA bodyB distanceOpt none).distanceEquation.maxForce = 1e6 :=
  ⟨rfl, rfl, rfl, rfl, rfl, rfl, rfl, rfl⟩

/-- Test material with tag 0. -/
def matA : Material := ⟨0⟩

/-- Test material with tag 1. -/
def matB : Material := ⟨1⟩

theorem ContactMaterial.constructAll_ids
    (reqs : List (Material × Material × ContactMaterialOptions)) (idCounter : ℕ) :
    (ContactMaterial.constructAll reqs idCounter).map (fun m => m.id)
      = List.range' idCounter reqs.length := by
  induction reqs generalizing idCounter with
  | nil => simp [ContactMaterial.constructAll]
  | cons r rest ih =>
      obtain ⟨m1, m2, o⟩ := r
      simp [ContactMaterial.constructAll, ContactMaterial.construct, ih,
        List.range'_succ]

/-- C8: across any sequence of `ContactMaterial` constructions starting from
the initial counter 0, the assigned ids are `0, 1, 2, ...` — strictly
increasing and pairwise distinct, never reused. -/
theorem contactMaterial_ids_strictly_increasing
    (reqs : List (Material × Material × ContactMaterialOptions)) :
    (ContactMaterial.constructAll reqs 0).map (fun m => m.id)
        = List.range reqs.length ∧
    List.Pairwise (· < ·) ((ContactMaterial.constructAll reqs 0).map (fun m => m.id)) ∧
    ((ContactMaterial.constructAll reqs 0).map (fun m => m.id)).Nodup := by
  have h := ContactMaterial.constructAll_ids reqs 0
  rw [h, ← List.range_eq_range']
  exact ⟨rfl, List.pairwise_lt_range _, List.nodup_range _⟩

/-- C9: every `ContactMaterial` field either takes the supplied option value
or, when the option is absent, its documented default (friction 0.3,
restitution 0.3, stiffnesses 1e7, relaxations 3); the material pair is
stored in the order given. -/
theorem contactMaterial_defaults (m1 m2 : Material)
    (options : ContactMaterialOptions) (idCounter : ℕ) :
    (ContactMaterial.construct m1 m2 options idCounter).1.friction
        = options.friction.getD 0.3 ∧
    (ContactMaterial.construct m1 m2 options idCounter).1.restitution
        = options.restitution.getD 0.3 ∧
    (ContactMaterial.construct m1 m2 options idCounter).1.contactEquationStiffness
        = options.contactEquationStiffness.getD 1e7 ∧
    (ContactMaterial.construct m1 m2 options idCounter).1.contactEquationRelaxation
        = options.contactEquationRelaxation.getD 3 ∧
    (ContactMaterial.construct m1 m2 options idCounter).1.frictionEquationStiffness
        = options.frictionEquationStiffness.getD 1e7 ∧
    (ContactMaterial.construct m1 m2 options idCounter).1.frictionEquationRelaxation
        = options.frictionEquationRelaxation.getD 3 ∧
    (ContactMaterial.construct m1 m2 options idCounter).1.materials = (m1, m2) :=
  ⟨rfl, rfl, rfl, rfl, rfl, rfl, rfl⟩

theorem Spring.construct_restLength (bodyA bodyB : Body) (o : SpringOptions) :
    (Spring.construct bodyA bodyB o).restLength
      = match o.restLength with
        | some v => v
        | none => 1 := by
  obtain ⟨rl, st, dp, la, lb, wa, wb⟩ := o
  cases wa <;> cases wb <;> rfl

theorem Spring.construct_stiffness (bodyA bodyB : Body) (o : SpringOptions) :
    (Spring.construct bodyA bodyB o).stiffness
      = match o.stiffness with
        | some v => if v = 0 then 100 else v
        | none => 100 := by
  obtain ⟨rl, st, dp, la, lb, wa, wb⟩ := o
  cases wa <;> cases wb <;> rfl

theorem Spring.construct_damping (bodyA bodyB : Body) (o : SpringOptions) :
    (Spring.construct bodyA bodyB o).damping
      = match o.damping with
        | some v => if v = 0 then 1 else v
        | none => 1 := by
  obtain ⟨rl, st, dp, la, lb, wa, wb⟩ := o
  cases wa <;> cases wb <;> rfl

/-- C5 counterexample: constructing a `Spring` with negative stiffness,
damping and rest length, and a `ContactMaterial` with negative friction and
restitution, succeeds and stores the invalid values — no validation error
is raised at construction. -/
theorem construct_no_validation_counterexample :
    (Spring.construct bodyO bodyX
        { stiffness := some (-5), damping := some (-2), restLength := some (-3) }).stiffness
        = -5 ∧
    (Spring.construct bodyO bodyX
        { stiffness := some (-5), damping := some (-2), restLength := some (-3) }).damping
        = -2 ∧
    (Spring.construct bodyO bodyX
        { stiffness := some (-5), damping := some (-2), restLength := some (-3) }).restLength
        = -3 ∧
    (ContactMaterial.construct matA matB
        { friction := some (-1), restitution := some (-4) } 0).1.friction = -1 ∧
    (ContactMaterial.construct matA matB
        { friction := some (-1), restitution := some (-4) } 0).1.restitution = -4 := by
  refine ⟨?_, ?_, ?_, rfl, rfl⟩ <;>
    norm_num [Spring.construct_stiffness, Spring.construct_damping,
      Spring.construct_restLength]

/-- C5 (amended): the `Spring` and `ContactMaterial` constructors perform no
validation: a negative stiffness, damping or rest length, and a negative
friction or restitution, are stored unchanged instead of raising an error. -/
theorem construct_no_validation (bodyA bodyB : Body) (m1 m2 : Material)
    (v : ℝ) (hv : v < 0) (idCounter : ℕ) :
    (Spring.construct bodyA bodyB
        { stiffness := some v, damping := some v, restLength := some v }).stiffness = v ∧
    (Spring.construct bodyA bodyB
        { stiffness := some v, damping := some v, restLength := some v }).damping = v ∧
    (Spring.construct bodyA bodyB
        { stiffness := some v, damping := some v, restLength := some v }).restLength = v ∧
    (ContactMaterial.construct m1 m2
        { friction := some v, restitution := some v } idCounter).1.friction = v ∧
    (ContactMaterial.construct m1 m2
        { friction := some v, restitution := some v } idCounter).1.restitution = v := by
  have hne : v ≠ 0 := ne_of_lt hv
  refine ⟨?_, ?_, ?_, rfl, rfl⟩ <;>
    simp [Spring.construct_stiffness, Spring.construct_damping,
      Spring.construct_restLength, hne]

/-- Witness for the amended C5 at `v = -5`. -/
theorem construct_no_validation_witness :
    (-5 : ℝ) < 0 ∧
      (Spring.construct bodyO bodyX
        { stiffness := some (-5), damping := some (-5), restLength := some (-5) }).stiffness
        = -5 := by
  have h := construct_no_validation bodyO bodyX matA matB (-5) (by norm_num) 0
  exact ⟨by norm_num, h.1⟩

/-- C10: in the `Spring` constructor an explicit `stiffness` of 0 becomes 100
and an explicit `damping` of 0 becomes 1 (the JavaScript `||` treats 0 as
absent), while an explicit `restLength` of 0 is kept; omitted options give
`restLength = 1`, `stiffness = 100`, `damping = 1` and zero local anchors. -/
theorem spring_construct_defaults (bodyA bodyB : Body) (o : SpringOptions) :
    (o.stiffness = some 0 → (Spring.construct bodyA bodyB o).stiffness = 100) ∧
    (o.damping = some 0 → (Spring.construct bodyA bodyB o).damping = 1) ∧
    (o.restLength = some 0 → (Spring.construct bodyA bodyB o).restLength = 0) ∧
    (o.restLength = none → (Spring.construct bodyA bodyB o).restLength = 1) ∧
    (o.stiffness = none → (Spring.construct bodyA bodyB o).stiffness = 100) ∧
    (o.damping = none → (Spring.construct bodyA bodyB o).damping = 1) ∧
    (Spring.construct bodyA bodyB {}).restLength = 1 ∧
    (Spring.construct bodyA bodyB {}).stiffness = 100 ∧
    (Spring.construct bodyA bodyB {}).damping = 1 ∧
    (Spring.construct bodyA bodyB {}).localAnchorA = Vec3.zero ∧
    (Spring.construct bodyA bodyB {}).localAnchorB = Vec3.zero := by
  refine ⟨?_, ?_, ?_, ?_, ?_, ?_, rfl, rfl, rfl, rfl, rfl⟩ <;>
    intro h <;>
    simp [Spring.construct_stiffness, Spring.construct_damping,
      Spring.construct_restLength, h]

/-- Witness for C10 at concrete option records. -/
theorem spring_construct_defaults_witness :
    (Spring.construct bodyO bodyX
        { stiffness := some 0, damping := some 0, restLength := some 0 }).stiffness = 100 ∧
    (Spring.construct bodyO bodyX
        { stiffness := some 0, damping := some 0, restLength := some 0 }).damping = 1 ∧
    (Spring.construct bodyO bodyX
        { stiffness := some 0, damping := some 0, restLength := some 0 }).restLength = 0 := by
  have h := spring_construct_defaults bodyO bodyX
    { stiffness := some 0, damping := some 0, restLength := some 0 }
  exact ⟨h.1 rfl, h.2.1 rfl, h.2.2.1 rfl⟩

/-- A concrete spring between the test bodies, all options defaulted. -/
noncomputable def springFix : Spring := Spring.construct bodyO bodyX {}

/-- C2: for a `Spring` whose world anchors do not coincide, `applyForce()`
computes `f = r_unit * (-stiffness*(rlen - restLength) - damping*(u . r_unit))`
with `r = worldAnchorB - worldAnchorA`, `r_unit = r / |r|`,
`u = (vB - vA) + (omegaB x rj) - (omegaA x ri)`, and `ri`, `rj` the world
anchor offsets from each body's center; it subtracts `f` from bodyA's force,
adds `f` to bodyB's force, subtracts `ri x f` from bodyA's torque and adds
`rj x f` to bodyB's torque. -/
theorem spring_applyForce_formula (s : Spring)
    (h : s.getWorldAnchorA ≠ s.getWorldAnchorB) :
    ∃ ri rj u f : Vec3,
      ri = s.getWorldAnchorA.vsub s.bodyA.position ∧
      rj = s.getWorldAnchorB.vsub s.bodyB.position ∧
      u = ((s.bodyB.velocity.vsub s.bodyA.velocity).vadd
            (s.bodyB.angularVelocity.cross rj)).vsub
          (s.bodyA.angularVelocity.cross ri) ∧
      f = ((s.getWorldAnchorB.vsub s.getWorldAnchorA).mult
             (Vec3.norm (s.getWorldAnchorB.vsub s.getWorldAnchorA))⁻¹).mult
            (-s.stiffness
                * (Vec3.norm (s.getWorldAnchorB.vsub s.getWorldAnchorA) - s.restLength)
              - s.damping
                * (u.dot ((s.getWorldAnchorB.vsub s.getWorldAnchorA).mult
                    (Vec3.norm (s.getWorldAnchorB.vsub s.getWorldAnchorA))⁻¹))) ∧
      s.applyForce = some (s,
        { s.bodyA with force := s.bodyA.force.vsub f,
                       torque := s.bodyA.torque.vsub (ri.cross f) },
        { s.bodyB with force := s.bodyB.force.vadd f,
                       torque := s.bodyB.torque.vadd (rj.cross f) }) := by
  have hvz : s.getWorldAnchorB.vsub s.getWorldAnchorA ≠ Vec3.zero := by
    intro h0
    exact h ((Vec3.vsub_eq_zero_iff _ _).mp h0).symm
  refine ⟨_, _, _, _, rfl, rfl, rfl, rfl, ?_⟩
  unfold Spring.applyForce
  simp only [Vec3.normalize_eq_some hvz]

/-- Witness for C2 at a concrete spring with distinct world anchors. -/
theorem spring_applyForce_formula_witness :
    springFix.getWorldAnchorA ≠ springFix.getWorldAnchorB ∧
      (Spring.applyForce springFix).isSome = true := by
  have hne : springFix.getWorldAnchorA ≠ springFix.getWorldAnchorB := by
    intro h
    have hx := congrArg Vec3.x h
    norm_num [springFix, Spring.construct, Spring.getWorldAnchorA,
      Spring.getWorldAnchorB, Body.pointToWorldFrame, bodyO, bodyX, mkTestBody,
      Vec3.vadd, Vec3.zero] at hx
  obtain ⟨ri, rj, u, f, _, _, _, _, happ⟩ :=
    spring_applyForce_formula springFix hne
  exact ⟨hne, by rw [happ]; rfl⟩

/-- C3: `applyForce()` only accumulates into the four force / torque
accumulators — the spring itself and every kinematic field of both bodies
are unchanged, and the added deltas do not depend on the accumulators'
current contents (the same deltas are added whatever values the
accumulators start from). -/
theorem spring_applyForce_frame (s sOut : Spring) (bodyAOut bodyBOut : Body)
    (h : s.applyForce = some (sOut, bodyAOut, bodyBOut)) :
    sOut = s ∧
    bodyAOut.position = s.bodyA.position ∧
    bodyAOut.velocity = s.bodyA.velocity ∧
    bodyAOut.angularVelocity = s.bodyA.angularVelocity ∧
    bodyAOut.rot = s.bodyA.rot ∧
    bodyAOut.rotInv = s.bodyA.rotInv ∧
    bodyBOut.position = s.bodyB.position ∧
    bodyBOut.velocity = s.bodyB.velocity ∧
    bodyBOut.angularVelocity = s.bodyB.angularVelocity ∧
    bodyBOut.rot = s.bodyB.rot ∧
    bodyBOut.rotInv = s.bodyB.rotInv ∧
    ∃ f tA tB : Vec3,
      bodyAOut.force = s.bodyA.force.vsub f ∧
      bodyAOut.torque = s.bodyA.torque.vsub tA ∧
      bodyBOut.force = s.bodyB.force.vadd f ∧
      bodyBOut.torque = s.bodyB.torque.vadd tB ∧
      ∀ accFA accTA accFB accTB : Vec3,
        (s.withAccumulators accFA accTA accFB accTB).applyForce
          = some (s.withAccumulators accFA accTA accFB accTB,
              { s.bodyA with force := accFA.vsub f, torque := accTA.vsub tA },
              { s.bodyB with force := accFB.vadd f, torque := accTB.vadd tB }) := by
  cases hn : Vec3.normalize (s.getWorldAnchorB.vsub s.getWorldAnchorA) with
  | none =>
      unfold Spring.applyForce at h
      simp only [hn] at h
      exact Option.noConfusion h
  | some runit =>
      unfold Spring.applyForce at h
      simp only [hn, Option.some.injEq, Prod.mk.injEq] at h
      obtain ⟨hs, hA, hB⟩ := h
      subst hs hA hB
      refine ⟨rfl, rfl, rfl, rfl, rfl, rfl, rfl, rfl, rfl, rfl, rfl,
        _, _, _, rfl, rfl, rfl, rfl, ?_⟩
      intro accFA accTA accFB accTB
      have hn2 : Vec3.normalize
          ((s.withAccumulators accFA accTA accFB accTB).getWorldAnchorB.vsub
            ((s.withAccumulators accFA accTA accFB accTB).getWorldAnchorA))
          = some runit := hn
      unfold Spring.applyForce
      simp only [hn2]
      simp [Spring.withAccumulators, Spring.getWorldAnchorA, Spring.getWorldAnchorB,
        Body.pointToWorldFrame]

/-- Witness for C3 at a concrete spring: `applyForce` produces a result there
and leaves the spring itself unchanged. -/
theorem spring_applyForce_frame_witness :
    (Spring.applyForce springFix).isSome = true ∧
      (Spring.applyForce springFix).map (fun out => out.1) = some springFix := by
  have hvz : springFix.getWorldAnchorB.vsub springFix.getWorldAnchorA
      ≠ Vec3.zero := by
    intro h0
    have hx := congrArg Vec3.x h0
    norm_num [springFix, Spring.construct, Spring.getWorldAnchorA,
      Spring.getWorldAnchorB, Body.pointToWorldFrame, bodyO, bodyX, mkTestBody,
      Vec3.vadd, Vec3.vsub, Vec3.zero] at hx
  have hsome : (Spring.applyForce springFix).isSome = true := by
    unfold Spring.applyForce
    simp only [Vec3.normalize_eq_some hvz]
    rfl
  obtain ⟨out, hout⟩ := Option.isSome_iff_exists.mp hsome
  obtain ⟨s1, a1, b1⟩ := out
  have frame := spring_applyForce_frame springFix s1 a1 b1 hout
  rw [hout]
  exact ⟨rfl, by rw [frame.1]; rfl⟩

end CannonES
